import Mathlib

/-!
Shallow embedding of the Qiskit Aqua chemistry tutorial notebook
`qiskit/aqua/chemistry/advanced_howto.ipynb`.

The notebook is glue code over an external chemistry/quantum library
(qiskit_aqua_chemistry / qiskit_aqua).  The external library's objects
(molecule, fermionic operator, qubit operator, results) are opaque to the
notebook, so they are modelled by type parameters `FOp`, `QOp`, `H1T`, `H2T`
and a record `Lib` of the library entry points the notebook calls.  The
notebook's own computation — the freeze/remove index conversion, the
particle/orbital bookkeeping, the branch structure and the energy
corrections — is translated literally from the notebook cells.

Energies are modelled by `ℚ` (the notebook only adds them); Python integers
are modelled by `Int` (Python's `%` on a positive divisor agrees with
`Int.emod`).
-/

/-- The molecule object returned by `driver.run(section)`; the notebook reads
exactly these attributes (`_one_body_integrals`, `_two_body_integrals`,
`_nuclear_repulsion_energy`, `_hf_energy`, `_num_alpha`, `_num_beta`,
`_num_orbitals`). The integral tables are opaque library data. -/
structure Molecule (H1T H2T : Type) where
  one_body_integrals : H1T
  two_body_integrals : H2T
  nuclear_repulsion_energy : ℚ
  hf_energy : ℚ
  num_alpha : Nat
  num_beta : Nat
  num_orbitals : Nat

/-- A complex value, as read from the exact eigensolver result
(`ret['eigvals'][0].real`). -/
structure Cplx where
  re : ℚ
  im : ℚ

/-- Result dictionary of `ExactEigensolver.run()`: the notebook reads
`ret['eigvals'][0]`. -/
structure ExactResult where
  eigvals : Nat → Cplx

/-- Result dictionary of `vqe_algorithm.run()`: the notebook reads
`results['eigvals'][0]` and `results['opt_params']`. -/
structure VQEResult where
  eigvals : Nat → ℚ
  opt_params : List ℚ

/-- A value of the PySCF driver configuration dictionary (`pyscf_cfg` mixes
strings and integers). -/
inductive ConfigValue
  | str (s : String)
  | int (z : Int)
deriving DecidableEq

/-- The `pyscf_cfg` ordered dictionary from cell 5 of the notebook. -/
def pyscf_cfg : List (String × ConfigValue) :=
  [("atom", ConfigValue.str "Li .0 .0 .0; H .0 .0 1.6"),
   ("unit", ConfigValue.str "Angstrom"),
   ("charge", ConfigValue.int 0),
   ("spin", ConfigValue.int 0),
   ("basis", ConfigValue.str "sto3g")]

/-- The `section` dictionary from cell 5 (`section['properties'] = pyscf_cfg`);
`section` is a Lean keyword, hence the `nb_` prefix. -/
def nb_section : List (String × List (String × ConfigValue)) :=
  [("properties", pyscf_cfg)]

/-- The call surface of the external library used by the notebook, with the
opaque object types as parameters.  Each field is one documented entry point:
`driver.run`, the `FermionicOperator` constructor, `fermion_mode_freezing`,
`fermion_mode_elimination`, `FermionicOperator.mapping`,
`Operator.two_qubit_reduced_operator`, `Operator.chop`,
`ExactEigensolver` (init_args + run, with k), and the VQE pipeline
(run after init with the notebook-computed scalars). -/
structure Lib (FOp QOp H1T H2T : Type) where
  driverRun : List (String × List (String × ConfigValue)) → Molecule H1T H2T
  fermionicOperator : H1T → H2T → FOp
  fermion_mode_freezing : FOp → List Int → FOp × ℚ
  fermion_mode_elimination : FOp → List Int → FOp
  mapping : FOp → String → ℚ → QOp
  two_qubit_reduced_operator : QOp → Int → QOp
  chop : QOp → ℚ → QOp
  exactEigRun : QOp → Nat → ExactResult
  vqeRun : QOp → Int → Int → String → Bool → VQEResult

/-- Cell 7: `freeze_list = [0]`. -/
def freeze_list_init : List Int := [0]

/-- Cell 7: `remove_list = [-3, -2]` (negative numbers denote reverse order). -/
def remove_list_init : List Int := [-3, -2]

/-- Cell 7: `map_type = 'parity'`. -/
def map_type : String := "parity"

/-- Cell 7 index conversion, translated statement by statement:
```
remove_list = [x % molecule._num_orbitals for x in remove_list]
freeze_list = [x % molecule._num_orbitals for x in freeze_list]
remove_list = [x - len(freeze_list) for x in remove_list]
remove_list += [x + molecule._num_orbitals - len(freeze_list)  for x in remove_list]
freeze_list += [x + molecule._num_orbitals for x in freeze_list]
```
Returns the final `(freeze_list, remove_list)`. -/
def convertedLists (n : Nat) : List Int × List Int :=
  let remove_list := remove_list_init.map (fun x => x % (n : Int))
  let freeze_list := freeze_list_init.map (fun x => x % (n : Int))
  let remove_list := remove_list.map (fun x => x - (freeze_list.length : Int))
  let remove_list :=
    remove_list ++ remove_list.map (fun x => x + (n : Int) - (freeze_list.length : Int))
  let freeze_list := freeze_list ++ freeze_list.map (fun x => x + (n : Int))
  (freeze_list, remove_list)

/-- Cell 7: `num_particles = molecule._num_alpha + molecule._num_beta`. -/
def num_particles0 (m : Molecule H1T H2T) : Int :=
  (m.num_alpha : Int) + (m.num_beta : Int)

/-- Cell 7: `num_spin_orbitals = molecule._num_orbitals * 2`. -/
def num_spin_orbitals0 (m : Molecule H1T H2T) : Int :=
  (m.num_orbitals : Int) * 2

/-- Cell 7: `qubit_reduction = True if map_type == 'parity' else False`. -/
def qubit_reduction (mt : String) : Bool :=
  if mt = "parity" then true else false

/-- Cell 7: `ferOp = FermionicOperator(h1=h1, h2=h2)` where
`h1 = molecule._one_body_integrals`, `h2 = molecule._two_body_integrals`. -/
def ferOp0 (lib : Lib FOp QOp H1T H2T) (m : Molecule H1T H2T) : FOp :=
  lib.fermionicOperator m.one_body_integrals m.two_body_integrals

/-- The notebook variables updated by the `if len(freeze_list) > 0:` branch. -/
structure FreezeOut (FOp : Type) where
  ferOp : FOp
  energy_shift : ℚ
  num_spin_orbitals : Int
  num_particles : Int

/-- Cell 7, the freezing branch:
```
energy_shift = 0.0
if len(freeze_list) > 0:
    ferOp, energy_shift = ferOp.fermion_mode_freezing(freeze_list)
    num_spin_orbitals -= len(freeze_list)
    num_particles -= len(freeze_list)
```
-/
def freezeStage (lib : Lib FOp QOp H1T H2T) (m : Molecule H1T H2T) : FreezeOut FOp :=
  let fl := (convertedLists m.num_orbitals).1
  if 0 < fl.length then
    let fr := lib.fermion_mode_freezing (ferOp0 lib m) fl
    { ferOp := fr.1, energy_shift := fr.2,
      num_spin_orbitals := num_spin_orbitals0 m - (fl.length : Int),
      num_particles := num_particles0 m - (fl.length : Int) }
  else
    { ferOp := ferOp0 lib m, energy_shift := 0,
      num_spin_orbitals := num_spin_orbitals0 m,
      num_particles := num_particles0 m }

/-- The notebook variables updated by the `if len(remove_list) > 0:` branch. -/
structure RemoveOut (FOp : Type) where
  ferOp : FOp
  num_spin_orbitals : Int

/-- Cell 7, the elimination branch:
```
if len(remove_list) > 0:
    ferOp = ferOp.fermion_mode_elimination(remove_list)
    num_spin_orbitals -= len(remove_list)
```
-/
def removeStage (lib : Lib FOp QOp H1T H2T) (m : Molecule H1T H2T) : RemoveOut FOp :=
  let rl := (convertedLists m.num_orbitals).2
  if 0 < rl.length then
    { ferOp := lib.fermion_mode_elimination (freezeStage lib m).ferOp rl,
      num_spin_orbitals := (freezeStage lib m).num_spin_orbitals - (rl.length : Int) }
  else
    { ferOp := (freezeStage lib m).ferOp,
      num_spin_orbitals := (freezeStage lib m).num_spin_orbitals }

/-- Cell 7: the mapping threshold `0.00000001`. -/
def mapping_threshold : ℚ := 1 / 10 ^ 8

/-- Cell 7: the chop threshold `10**-10`. -/
def chop_threshold : ℚ := 1 / 10 ^ 10

/-- Cell 7: `qubitOp = ferOp.mapping(map_type=map_type, threshold=0.00000001)`. -/
def qubitOp_mapped (mt : String) (lib : Lib FOp QOp H1T H2T) (m : Molecule H1T H2T) : QOp :=
  lib.mapping (removeStage lib m).ferOp mt mapping_threshold

/-- Cell 7:
`qubitOp = qubitOp.two_qubit_reduced_operator(num_particles) if qubit_reduction else qubitOp`. -/
def qubitOp_afterReduction (mt : String) (lib : Lib FOp QOp H1T H2T)
    (m : Molecule H1T H2T) : QOp :=
  if qubit_reduction mt then
    lib.two_qubit_reduced_operator (qubitOp_mapped mt lib m) (freezeStage lib m).num_particles
  else
    qubitOp_mapped mt lib m

/-- Cell 7: `qubitOp.chop(10**-10)` (chop mutates the operator in place). -/
def qubitOp_final (mt : String) (lib : Lib FOp QOp H1T H2T) (m : Molecule H1T H2T) : QOp :=
  lib.chop (qubitOp_afterReduction mt lib m) chop_threshold

/-- All notebook variables live at the end of cell 7.  The three successive
values of the Python variable `qubitOp` are kept as separate fields
(`qubitOp_mapped`, `qubitOp_afterReduction`, `qubitOp`). -/
structure Cell7Result (FOp QOp : Type) where
  freeze_list : List Int
  remove_list : List Int
  num_particles : Int
  num_spin_orbitals : Int
  energy_shift : ℚ
  qubit_reduction : Bool
  ferOp : FOp
  qubitOp_mapped : QOp
  qubitOp_afterReduction : QOp
  qubitOp : QOp

/-- Cell 7 in full, parametrised by the mapping type (the notebook fixes
`mt = map_type = "parity"`). -/
def cell7 (mt : String) (lib : Lib FOp QOp H1T H2T) (m : Molecule H1T H2T) :
    Cell7Result FOp QOp :=
  { freeze_list := (convertedLists m.num_orbitals).1,
    remove_list := (convertedLists m.num_orbitals).2,
    num_particles := (freezeStage lib m).num_particles,
    num_spin_orbitals := (removeStage lib m).num_spin_orbitals,
    energy_shift := (freezeStage lib m).energy_shift,
    qubit_reduction := qubit_reduction mt,
    ferOp := (removeStage lib m).ferOp,
    qubitOp_mapped := qubitOp_mapped mt lib m,
    qubitOp_afterReduction := qubitOp_afterReduction mt lib m,
    qubitOp := qubitOp_final mt lib m }

/-- The straight-line (branch-free) freezing step: the body of the freezing
branch executed unconditionally. -/
def freezeStage_straight (lib : Lib FOp QOp H1T H2T) (m : Molecule H1T H2T) : FreezeOut FOp :=
  let fl := (convertedLists m.num_orbitals).1
  let fr := lib.fermion_mode_freezing (ferOp0 lib m) fl
  { ferOp := fr.1, energy_shift := fr.2,
    num_spin_orbitals := num_spin_orbitals0 m - (fl.length : Int),
    num_particles := num_particles0 m - (fl.length : Int) }

/-- The straight-line (branch-free) elimination step. -/
def removeStage_straight (lib : Lib FOp QOp H1T H2T) (m : Molecule H1T H2T) : RemoveOut FOp :=
  let rl := (convertedLists m.num_orbitals).2
  { ferOp := lib.fermion_mode_elimination (freezeStage_straight lib m).ferOp rl,
    num_spin_orbitals := (freezeStage_straight lib m).num_spin_orbitals - (rl.length : Int) }

/-- The unconditional linear program of cell 7: every library call performed
unconditionally, in the notebook's order, with both conditionals and the
`qubit_reduction` conditional expression removed. -/
def cell7_straight (lib : Lib FOp QOp H1T H2T) (m : Molecule H1T H2T) :
    Cell7Result FOp QOp :=
  let mapped := lib.mapping (removeStage_straight lib m).ferOp map_type mapping_threshold
  let reduced := lib.two_qubit_reduced_operator mapped (freezeStage_straight lib m).num_particles
  { freeze_list := (convertedLists m.num_orbitals).1,
    remove_list := (convertedLists m.num_orbitals).2,
    num_particles := (freezeStage_straight lib m).num_particles,
    num_spin_orbitals := (removeStage_straight lib m).num_spin_orbitals,
    energy_shift := (freezeStage_straight lib m).energy_shift,
    qubit_reduction := true,
    ferOp := (removeStage_straight lib m).ferOp,
    qubitOp_mapped := mapped,
    qubitOp_afterReduction := reduced,
    qubitOp := lib.chop reduced chop_threshold }

/-- One external-library call of the notebook, used to state the execution
order. -/
inductive CallEvent
  | driverRun
  | ferOpConstruct
  | freezing
  | elimination
  | mapping
  | twoQubitReduction
  | chop
  | exactRun
  | vqeRun
deriving DecidableEq

/-- The sequence of library calls cell 7 performs, with the same branch
structure as the code (`n` is `molecule._num_orbitals`, `mt` the mapping
type). -/
def cell7Events (mt : String) (n : Nat) : List CallEvent :=
  [CallEvent.ferOpConstruct]
    ++ (if 0 < (convertedLists n).1.length then [CallEvent.freezing] else [])
    ++ (if 0 < (convertedLists n).2.length then [CallEvent.elimination] else [])
    ++ [CallEvent.mapping]
    ++ (if qubit_reduction mt then [CallEvent.twoQubitReduction] else [])
    ++ [CallEvent.chop]

/-- The sequence of library calls of the whole notebook run, cells executed
top to bottom: the driver run (cell 5), the qubit-Hamiltonian preparation
(cell 7), the exact eigensolver (cell 9) and VQE (cells 13/15). -/
def notebookEvents (n : Nat) : List CallEvent :=
  [CallEvent.driverRun] ++ cell7Events map_type n
    ++ [CallEvent.exactRun] ++ [CallEvent.vqeRun]

/-- Cell 9: `ret = exact_eigensolver.run()` after `init_args(qubitOp, k=1)`. -/
def exactRet (lib : Lib FOp QOp H1T H2T) (m : Molecule H1T H2T) : ExactResult :=
  lib.exactEigRun (cell7 map_type lib m).qubitOp 1

/-- Cell 9: the printed computed energy `ret['eigvals'][0].real`. -/
def exact_computed (lib : Lib FOp QOp H1T H2T) (m : Molecule H1T H2T) : ℚ :=
  ((exactRet lib m).eigvals 0).re

/-- Cell 9: the printed total ground state energy
`ret['eigvals'][0].real + energy_shift + nuclear_repulsion_energy`. -/
def exact_total (lib : Lib FOp QOp H1T H2T) (m : Molecule H1T H2T) : ℚ :=
  ((exactRet lib m).eigvals 0).re + (cell7 map_type lib m).energy_shift
    + m.nuclear_repulsion_energy

/-- Cells 13/15: `results = vqe_algorithm.run()` after the VQE pipeline is
initialised with the notebook-computed `qubitOp`, `num_spin_orbitals`,
`num_particles`, `map_type` and `qubit_reduction`. -/
def vqeRet (lib : Lib FOp QOp H1T H2T) (m : Molecule H1T H2T) : VQEResult :=
  lib.vqeRun (cell7 map_type lib m).qubitOp (cell7 map_type lib m).num_spin_orbitals
    (cell7 map_type lib m).num_particles map_type (cell7 map_type lib m).qubit_reduction

/-- Cell 15: the printed computed ground state energy `results['eigvals'][0]`. -/
def vqe_computed (lib : Lib FOp QOp H1T H2T) (m : Molecule H1T H2T) : ℚ :=
  (vqeRet lib m).eigvals 0

/-- Cell 15: the printed total ground state energy
`results['eigvals'][0] + energy_shift + nuclear_repulsion_energy`. -/
def vqe_total (lib : Lib FOp QOp H1T H2T) (m : Molecule H1T H2T) : ℚ :=
  (vqeRet lib m).eigvals 0 + (cell7 map_type lib m).energy_shift
    + m.nuclear_repulsion_energy

/-- The affine correction turning a computed eigenvalue into a total ground
state energy. -/
def correction (shift nre x : ℚ) : ℚ :=
  x + shift + nre

/-- How an external-library instance is obtained in the notebook: either a
factory lookup by string name (`get_*_instance('Name')`), or a direct
constructor call on an imported class. -/
inductive InstanceCreation
  | factory (factoryCall : String) (name : String)
  | direct (className : String)
deriving DecidableEq

/-- Every external-library instance creation performed by the notebook, in
source order: `ConfigurationManager()` (cell 5),
`cfg_mgr.get_driver_instance('PYSCF')` (cell 5),
`FermionicOperator(h1=h1, h2=h2)` (cell 7),
`get_algorithm_instance('ExactEigensolver')` (cell 9),
`get_optimizer_instance('COBYLA')`, `get_initial_state_instance('HartreeFock')`,
`get_variational_form_instance('UCCSD')`, `get_algorithm_instance('VQE')`
(cell 13). -/
def notebookCreations : List InstanceCreation :=
  [InstanceCreation.direct "ConfigurationManager",
   InstanceCreation.factory "get_driver_instance" "PYSCF",
   InstanceCreation.direct "FermionicOperator",
   InstanceCreation.factory "get_algorithm_instance" "ExactEigensolver",
   InstanceCreation.factory "get_optimizer_instance" "COBYLA",
   InstanceCreation.factory "get_initial_state_instance" "HartreeFock",
   InstanceCreation.factory "get_variational_form_instance" "UCCSD",
   InstanceCreation.factory "get_algorithm_instance" "VQE"]

/-- Whether an instance creation is a factory lookup by string name. -/
def isFactoryCreation : InstanceCreation → Bool
  | InstanceCreation.factory _ _ => true
  | InstanceCreation.direct _ => false

/-- The string names used in the notebook's factory lookups. -/
def factoryNames : List String :=
  ["PYSCF", "ExactEigensolver", "COBYLA", "HartreeFock", "UCCSD", "VQE"]

/-- Whether an instance creation is one of the notebook's two forms: a factory
lookup by one of the six string names, or a direct constructor call of
`ConfigurationManager` or `FermionicOperator`. -/
def creationOk : InstanceCreation → Bool
  | InstanceCreation.factory _ nm => factoryNames.contains nm
  | InstanceCreation.direct cn =>
      cn == "ConfigurationManager" || cn == "FermionicOperator"

/-- Every key under which the notebook reads a result dictionary, in source
order: `ret['eigvals']` twice in cell 9, `results['eigvals']` twice and
`results['opt_params']` once in cell 15. -/
def resultKeyReads : List String :=
  ["eigvals", "eigvals", "eigvals", "eigvals", "opt_params"]

/-- The library call surface again, with every call fallible (`Except ε`):
the notebook installs no exception handler, so its execution is the plain
monadic sequence of these calls. -/
structure LibE (ε FOp QOp H1T H2T : Type) where
  driverRun : List (String × List (String × ConfigValue)) → Except ε (Molecule H1T H2T)
  fermionicOperator : H1T → H2T → Except ε FOp
  fermion_mode_freezing : FOp → List Int → Except ε (FOp × ℚ)
  fermion_mode_elimination : FOp → List Int → Except ε FOp
  mapping : FOp → String → ℚ → Except ε QOp
  two_qubit_reduced_operator : QOp → Int → Except ε QOp
  chop : QOp → ℚ → Except ε QOp
  exactEigRun : QOp → Nat → Except ε ExactResult
  vqeRun : QOp → Int → Int → String → Bool → Except ε VQEResult

/-- Cell 7 with fallible library calls: the same statements as `cell7`,
sequenced by plain monadic bind with no handler. -/
def cell7E (mt : String) (lib : LibE ε FOp QOp H1T H2T) (m : Molecule H1T H2T) :
    Except ε (Cell7Result FOp QOp) := do
  let fl := (convertedLists m.num_orbitals).1
  let rl := (convertedLists m.num_orbitals).2
  let ferOp ← lib.fermionicOperator m.one_body_integrals m.two_body_integrals
  let st1 ←
    if 0 < fl.length then do
      let fr ← lib.fermion_mode_freezing ferOp fl
      pure (fr.1, fr.2, num_spin_orbitals0 m - (fl.length : Int),
            num_particles0 m - (fl.length : Int))
    else
      pure (ferOp, (0 : ℚ), num_spin_orbitals0 m, num_particles0 m)
  let st2 ←
    if 0 < rl.length then do
      let f2 ← lib.fermion_mode_elimination st1.1 rl
      pure (f2, st1.2.2.1 - (rl.length : Int))
    else
      pure (st1.1, st1.2.2.1)
  let qop ← lib.mapping st2.1 mt mapping_threshold
  let qop2 ←
    if qubit_reduction mt then
      lib.two_qubit_reduced_operator qop st1.2.2.2
    else
      pure qop
  let qop3 ← lib.chop qop2 chop_threshold
  pure { freeze_list := fl, remove_list := rl,
         num_particles := st1.2.2.2, num_spin_orbitals := st2.2,
         energy_shift := st1.2.1, qubit_reduction := qubit_reduction mt,
         ferOp := st2.1, qubitOp_mapped := qop,
         qubitOp_afterReduction := qop2, qubitOp := qop3 }

/-- The values the notebook prints from the two solver runs. -/
structure NotebookOutputs where
  exact_computed : ℚ
  exact_total : ℚ
  vqe_computed : ℚ
  vqe_total : ℚ
  opt_params : List ℚ

/-- The whole notebook with fallible library calls: driver run, cell 7, the
exact eigensolver, then VQE, sequenced by plain monadic bind with no
handler. -/
def runNotebookE (lib : LibE ε FOp QOp H1T H2T) : Except ε NotebookOutputs := do
  let m ← lib.driverRun nb_section
  let c7 ← cell7E map_type lib m
  let ret ← lib.exactEigRun c7.qubitOp 1
  let results ← lib.vqeRun c7.qubitOp c7.num_spin_orbitals c7.num_particles
                  map_type c7.qubit_reduction
  pure { exact_computed := (ret.eigvals 0).re,
         exact_total := (ret.eigvals 0).re + c7.energy_shift + m.nuclear_repulsion_energy,
         vqe_computed := results.eigvals 0,
         vqe_total := results.eigvals 0 + c7.energy_shift + m.nuclear_repulsion_energy,
         opt_params := results.opt_params }

/-- A concrete molecule with the attribute values of the notebook's LiH run
(`num_orbitals = 6`, `num_alpha = num_beta = 2`), opaque data trivial. -/
def mol0 : Molecule Unit Unit :=
  { one_body_integrals := (), two_body_integrals := (),
    nuclear_repulsion_energy := 1, hf_energy := -8,
    num_alpha := 2, num_beta := 2, num_orbitals := 6 }

/-- A second concrete molecule: identical to `mol0` on every attribute the
qubit-Hamiltonian preparation reads, but with a different `hf_energy`. -/
def mol1 : Molecule Unit Unit :=
  { one_body_integrals := (), two_body_integrals := (),
    nuclear_repulsion_energy := 1, hf_energy := -7,
    num_alpha := 2, num_beta := 2, num_orbitals := 6 }

/-- A concrete, trivial library instance, used to evaluate the notebook's own
computation on concrete inputs. -/
def unitLib : Lib Unit Unit Unit Unit :=
  { driverRun := fun _ => mol0,
    fermionicOperator := fun _ _ => (),
    fermion_mode_freezing := fun _ _ => ((), 0),
    fermion_mode_elimination := fun _ _ => (),
    mapping := fun _ _ _ => (),
    two_qubit_reduced_operator := fun _ _ => (),
    chop := fun _ _ => (),
    exactEigRun := fun _ _ => { eigvals := fun _ => { re := 0, im := 0 } },
    vqeRun := fun _ _ _ _ _ => { eigvals := fun _ => 0, opt_params := [] } }

/-- A concrete fallible library whose driver call fails. -/
def failLibE : LibE String Unit Unit Unit Unit :=
  { driverRun := fun _ => Except.error "boom",
    fermionicOperator := fun _ _ => Except.ok (),
    fermion_mode_freezing := fun _ _ => Except.ok ((), 0),
    fermion_mode_elimination := fun _ _ => Except.ok (),
    mapping := fun _ _ _ => Except.ok (),
    two_qubit_reduced_operator := fun _ _ => Except.ok (),
    chop := fun _ _ => Except.ok (),
    exactEigRun := fun _ _ => Except.ok { eigvals := fun _ => { re := 0, im := 0 } },
    vqeRun := fun _ _ _ _ _ => Except.ok { eigvals := fun _ => 0, opt_params := [] } }

/-- A concrete cell-7 result value, used only to instantiate binders. -/
def c7_0 : Cell7Result Unit Unit :=
  { freeze_list := [], remove_list := [], num_particles := 0,
    num_spin_orbitals := 0, energy_shift := 0, qubit_reduction := true,
    ferOp := (), qubitOp_mapped := (), qubitOp_afterReduction := (),
    qubitOp := () }

/-- A concrete exact-eigensolver result value, used only to instantiate
binders. -/
def ret0 : ExactResult :=
  { eigvals := fun _ => { re := 0, im := 0 } }

/-- Helper: the final `freeze_list` always has two entries. -/
theorem convertedLists_fst_length (n : Nat) : (convertedLists n).1.length = 2 := by
  simp [convertedLists, freeze_list_init, remove_list_init]

/-- Helper: the final `remove_list` always has four entries. -/
theorem convertedLists_snd_length (n : Nat) : (convertedLists n).2.length = 4 := by
  simp [convertedLists, freeze_list_init, remove_list_init]

/-- Helper: `Except` bind on a success. -/
theorem except_bindOk (a : α) (f : α → Except ε β) :
    (Except.ok a >>= f) = f a := rfl

/-- Helper: `Except` bind on an error. -/
theorem except_bindErr (e : ε) (f : α → Except ε β) :
    ((Except.error e : Except ε α) >>= f) = Except.error e := rfl

/-- Helper: `Except` map on an error. -/
theorem except_mapErr (e : ε) (f : α → β) :
    (f <$> (Except.error e : Except ε α)) = Except.error e := rfl

/-- Helper: on the notebook's mapping type the reduction flag is true. -/
theorem qubit_reduction_parity : qubit_reduction map_type = true := rfl

/-- Helper: for `4 ≤ n`, Python's `-3 % n` (which `Int.emod` matches on a
positive divisor) equals `n - 3`. -/
theorem neg_three_emod (n : Nat) (h : 4 ≤ n) : (-3 : Int) % (n : Int) = (n : Int) - 3 := by
  have hN : (4 : Int) ≤ (n : Int) := by exact_mod_cast h
  have e1 : ((-3 : Int) + (n : Int) * 1) % (n : Int) = (-3 : Int) % (n : Int) :=
    @Int.add_mul_emod_self_left (-3) (n : Int) 1
  have e2 : ((-3 : Int) + (n : Int) * 1) = (n : Int) - 3 := by ring
  rw [e2] at e1
  rw [← e1]
  exact Int.emod_eq_of_lt (by omega) (by omega)

/-- Helper: for `4 ≤ n`, Python's `-2 % n` equals `n - 2`. -/
theorem neg_two_emod (n : Nat) (h : 4 ≤ n) : (-2 : Int) % (n : Int) = (n : Int) - 2 := by
  have hN : (4 : Int) ≤ (n : Int) := by exact_mod_cast h
  have e1 : ((-2 : Int) + (n : Int) * 1) % (n : Int) = (-2 : Int) % (n : Int) :=
    @Int.add_mul_emod_self_left (-2) (n : Int) 1
  have e2 : ((-2 : Int) + (n : Int) * 1) = (n : Int) - 2 := by ring
  rw [e2] at e1
  rw [← e1]
  exact Int.emod_eq_of_lt (by omega) (by omega)

/-- C2 (amended): for `freeze_list = [0]`, `remove_list = [-3, -2]` and any
number of orbitals `n ≥ 4`, the cell-7 index conversion produces
`freeze_list = [0, n]` and `remove_list = [n-4, n-3, 2n-5, 2n-4]`; the indices
within each list are pairwise distinct, and all six indices are jointly
pairwise distinct whenever `n ≥ 6` (for `n = 4` and `n = 5` a frozen index
coincides with a removed index). -/
theorem C2_index_conversion (n : Nat) (h : 4 ≤ n) :
    (convertedLists n).1 = [0, (n : Int)]
    ∧ (convertedLists n).2
        = [(n : Int) - 4, (n : Int) - 3, 2 * (n : Int) - 5, 2 * (n : Int) - 4]
    ∧ (convertedLists n).1.Nodup
    ∧ (convertedLists n).2.Nodup
    ∧ (6 ≤ n → ((convertedLists n).1 ++ (convertedLists n).2).Nodup) := by
  have hN : (4 : Int) ≤ (n : Int) := by exact_mod_cast h
  have h3 := neg_three_emod n h
  have h2 := neg_two_emod n h
  have l1 : (convertedLists n).1 = [0, (n : Int)] := by
    simp [convertedLists, freeze_list_init, remove_list_init]
  have l2 : (convertedLists n).2
      = [(n : Int) - 4, (n : Int) - 3, 2 * (n : Int) - 5, 2 * (n : Int) - 4] := by
    simp [convertedLists, freeze_list_init, remove_list_init, h3, h2]
    omega
  refine ⟨l1, l2, ?_, ?_, ?_⟩
  · rw [l1]
    simp
    omega
  · rw [l2]
    simp
    omega
  · intro h6
    have hN6 : (6 : Int) ≤ (n : Int) := by exact_mod_cast h6
    rw [l1, l2]
    simp
    omega

/-- C2 witness: at the notebook's `n = 6` the converted lists are jointly
duplicate-free. -/
theorem C2_index_conversion_witness :
    ((convertedLists 6).1 ++ (convertedLists 6).2).Nodup :=
  (C2_index_conversion 6 (by decide)).2.2.2.2 (by decide)

/-- C2 counterexample: at `n = 4` (allowed by the claim's `n ≥ 4`) the
converted lists are `[0, 4]` and `[0, 1, 3, 4]`, so the six resulting indices
are not pairwise distinct: `0` and `4` are both frozen and removed. -/
theorem C2_counterexample :
    (convertedLists 4).1 = [0, 4] ∧ (convertedLists 4).2 = [0, 1, 3, 4]
    ∧ ¬ ((convertedLists 4).1 ++ (convertedLists 4).2).Nodup := by
  decide

/-- C1 (amended): the notebook does transform data between reading it from the
molecule object and passing it to the library: the freeze and remove lists
handed to `fermion_mode_freezing` and `fermion_mode_elimination` are the
arithmetic index conversion (`convertedLists`) of the literals `[0]` and
`[-3, -2]`, and differ from them, while the integral tables `h1`, `h2` are
passed to the `FermionicOperator` constructor unmodified. -/
theorem C1_transformed_arguments {FOp QOp H1T H2T : Type}
    (lib : Lib FOp QOp H1T H2T) (m : Molecule H1T H2T) :
    (cell7 map_type lib m).energy_shift
      = (lib.fermion_mode_freezing
          (lib.fermionicOperator m.one_body_integrals m.two_body_integrals)
          (convertedLists m.num_orbitals).1).2
    ∧ (cell7 map_type lib m).ferOp
      = lib.fermion_mode_elimination
          (lib.fermion_mode_freezing
            (lib.fermionicOperator m.one_body_integrals m.two_body_integrals)
            (convertedLists m.num_orbitals).1).1
          (convertedLists m.num_orbitals).2
    ∧ ¬ (convertedLists 6).1 = freeze_list_init
    ∧ ¬ (convertedLists 6).2 = remove_list_init := by
  refine ⟨?_, ?_, by decide, by decide⟩
  · simp [cell7, freezeStage, ferOp0, convertedLists_fst_length]
  · simp [cell7, removeStage, freezeStage, ferOp0,
          convertedLists_fst_length, convertedLists_snd_length]

/-- C1 witness: the transformation equations evaluated on a concrete library
and molecule. -/
theorem C1_transformed_arguments_witness :
    (cell7 map_type unitLib mol0).energy_shift
      = (unitLib.fermion_mode_freezing
          (unitLib.fermionicOperator mol0.one_body_integrals mol0.two_body_integrals)
          (convertedLists mol0.num_orbitals).1).2 :=
  (C1_transformed_arguments unitLib mol0).1

/-- C1 counterexample: the freeze and remove lists the notebook passes onward
(`[0, 6]` and `[2, 3, 7, 8]` at the notebook's `n = 6`) are not the data as
read (`[0]` and `[-3, -2]`): the notebook performed an original arithmetic
transformation on them. -/
theorem C1_counterexample :
    (convertedLists 6).1 = [0, 6] ∧ ¬ (convertedLists 6).1 = freeze_list_init
    ∧ (convertedLists 6).2 = [2, 3, 7, 8] ∧ ¬ (convertedLists 6).2 = remove_list_init := by
  decide

/-- C3 (amended): the notebook does maintain a bookkeeping invariant across
the freezing and elimination steps: afterwards
`num_spin_orbitals = 2 * num_orbitals - len(freeze_list) - len(remove_list)`
and `num_particles = num_alpha + num_beta - len(freeze_list)`, with the final
(converted) lists. -/
theorem C3_bookkeeping_invariant {FOp QOp H1T H2T : Type}
    (lib : Lib FOp QOp H1T H2T) (m : Molecule H1T H2T) :
    (cell7 map_type lib m).num_spin_orbitals
      = 2 * (m.num_orbitals : Int)
        - ((cell7 map_type lib m).freeze_list.length : Int)
        - ((cell7 map_type lib m).remove_list.length : Int)
    ∧ (cell7 map_type lib m).num_particles
      = (m.num_alpha : Int) + (m.num_beta : Int)
        - ((cell7 map_type lib m).freeze_list.length : Int) := by
  constructor
  · simp [cell7, removeStage, freezeStage, num_spin_orbitals0,
          convertedLists_fst_length, convertedLists_snd_length]
    ring
  · simp [cell7, freezeStage, num_particles0, convertedLists_fst_length]

/-- C3 counterexample: on the notebook's concrete run (`num_orbitals = 6`,
`num_alpha = num_beta = 2`) the invariant denied by the claim holds:
`num_spin_orbitals = 12 - 2 - 4 = 6` and `num_particles = 4 - 2 = 2`. -/
theorem C3_counterexample :
    (cell7 map_type unitLib mol0).num_spin_orbitals
      = 2 * (mol0.num_orbitals : Int)
        - ((cell7 map_type unitLib mol0).freeze_list.length : Int)
        - ((cell7 map_type unitLib mol0).remove_list.length : Int)
    ∧ (cell7 map_type unitLib mol0).num_particles
      = (mol0.num_alpha : Int) + (mol0.num_beta : Int)
        - ((cell7 map_type unitLib mol0).freeze_list.length : Int)
    ∧ (cell7 map_type unitLib mol0).num_spin_orbitals = 6
    ∧ (cell7 map_type unitLib mol0).num_particles = 2 := by
  decide

/-- C4: the notebook's conditionals never change the executed behaviour: on
the notebook's mapping type (`map_type = 'parity'`) cell 7 computes exactly
what the unconditional (branch-free) linear program of its library calls
computes, for every library and molecule. -/
theorem C4_straight_line {FOp QOp H1T H2T : Type}
    (lib : Lib FOp QOp H1T H2T) (m : Molecule H1T H2T) :
    cell7 map_type lib m = cell7_straight lib m := by
  have hf : freezeStage lib m = freezeStage_straight lib m := by
    simp [freezeStage, freezeStage_straight, convertedLists_fst_length]
  have hr : removeStage lib m = removeStage_straight lib m := by
    simp [removeStage, removeStage_straight, convertedLists_snd_length, hf]
  simp [cell7, cell7_straight, qubitOp_final, qubitOp_afterReduction,
        qubitOp_mapped, qubit_reduction, map_type, hf, hr]

/-- C5 (amended): every external-library instance in the notebook is obtained
either by a factory lookup on one of the six string names (`'PYSCF'`,
`'ExactEigensolver'`, `'COBYLA'`, `'HartreeFock'`, `'UCCSD'`, `'VQE'`) or by a
direct constructor call of the imported classes `ConfigurationManager` and
`FermionicOperator`; every result-dictionary read uses the key `'eigvals'` or
`'opt_params'`. -/
theorem C5_interface_forms :
    notebookCreations.all creationOk = true
    ∧ resultKeyReads.all (fun k => k == "eigvals" || k == "opt_params") = true := by
  decide

/-- C5 counterexample: not every library instance comes from a factory lookup
by string name — the `FermionicOperator` instance of cell 7 is created by a
direct constructor call. -/
theorem C5_counterexample :
    InstanceCreation.direct "FermionicOperator" ∈ notebookCreations
    ∧ notebookCreations.all isFactoryCreation = false := by
  decide

/-- C6: the notebook installs no exception handler: modelled as a plain
monadic sequence over `Except`, a failure of any of its external-library
calls — the driver run, the `FermionicOperator` constructor, freezing,
elimination, mapping, two-qubit reduction, chop, the exact eigensolver run, or
the VQE run — propagates out of the whole notebook unchanged. -/
theorem C6_error_propagation {ε FOp QOp H1T H2T : Type}
    (lib : LibE ε FOp QOp H1T H2T) (e : ε) (m : Molecule H1T H2T)
    (c7 : Cell7Result FOp QOp) (ret : ExactResult)
    (fo f2 : FOp) (fr : FOp × ℚ) (qop qop2 : QOp) :
    (lib.driverRun nb_section = Except.error e → runNotebookE lib = Except.error e)
    ∧ (lib.driverRun nb_section = Except.ok m →
        cell7E map_type lib m = Except.error e →
        runNotebookE lib = Except.error e)
    ∧ (lib.driverRun nb_section = Except.ok m →
        cell7E map_type lib m = Except.ok c7 →
        lib.exactEigRun c7.qubitOp 1 = Except.error e →
        runNotebookE lib = Except.error e)
    ∧ (lib.driverRun nb_section = Except.ok m →
        cell7E map_type lib m = Except.ok c7 →
        lib.exactEigRun c7.qubitOp 1 = Except.ok ret →
        lib.vqeRun c7.qubitOp c7.num_spin_orbitals c7.num_particles map_type
          c7.qubit_reduction = Except.error e →
        runNotebookE lib = Except.error e)
    ∧ (lib.fermionicOperator m.one_body_integrals m.two_body_integrals = Except.error e →
        cell7E map_type lib m = Except.error e)
    ∧ (lib.fermionicOperator m.one_body_integrals m.two_body_integrals = Except.ok fo →
        lib.fermion_mode_freezing fo (convertedLists m.num_orbitals).1 = Except.error e →
        cell7E map_type lib m = Except.error e)
    ∧ (lib.fermionicOperator m.one_body_integrals m.two_body_integrals = Except.ok fo →
        lib.fermion_mode_freezing fo (convertedLists m.num_orbitals).1 = Except.ok fr →
        lib.fermion_mode_elimination fr.1 (convertedLists m.num_orbitals).2 = Except.error e →
        cell7E map_type lib m = Except.error e)
    ∧ (lib.fermionicOperator m.one_body_integrals m.two_body_integrals = Except.ok fo →
        lib.fermion_mode_freezing fo (convertedLists m.num_orbitals).1 = Except.ok fr →
        lib.fermion_mode_elimination fr.1 (convertedLists m.num_orbitals).2 = Except.ok f2 →
        lib.mapping f2 map_type mapping_threshold = Except.error e →
        cell7E map_type lib m = Except.error e)
    ∧ (lib.fermionicOperator m.one_body_integrals m.two_body_integrals = Except.ok fo →
        lib.fermion_mode_freezing fo (convertedLists m.num_orbitals).1 = Except.ok fr →
        lib.fermion_mode_elimination fr.1 (convertedLists m.num_orbitals).2 = Except.ok f2 →
        lib.mapping f2 map_type mapping_threshold = Except.ok qop →
        lib.two_qubit_reduced_operator qop (num_particles0 m - 2) = Except.error e →
        cell7E map_type lib m = Except.error e)
    ∧ (lib.fermionicOperator m.one_body_integrals m.two_body_integrals = Except.ok fo →
        lib.fermion_mode_freezing fo (convertedLists m.num_orbitals).1 = Except.ok fr →
        lib.fermion_mode_elimination fr.1 (convertedLists m.num_orbitals).2 = Except.ok f2 →
        lib.mapping f2 map_type mapping_threshold = Except.ok qop →
        lib.two_qubit_reduced_operator qop (num_particles0 m - 2) = Except.ok qop2 →
        lib.chop qop2 chop_threshold = Except.error e →
        cell7E map_type lib m = Except.error e) := by
  refine ⟨?_, ?_, ?_, ?_, ?_, ?_, ?_, ?_, ?_, ?_⟩
  · intro h1
    simp [runNotebookE, h1, except_bindErr]
  · intro h1 h2
    simp [runNotebookE, h1, h2, except_bindOk, except_bindErr]
  · intro h1 h2 h3
    simp [runNotebookE, h1, h2, h3, except_bindOk, except_bindErr]
  · intro h1 h2 h3 h4
    simp [runNotebookE, h1, h2, h3, h4, except_bindOk, except_bindErr]
  · intro h1
    simp [cell7E, h1, except_bindErr]
  · intro h1 h2
    simp [cell7E, h1, h2, except_bindOk, except_bindErr,
          convertedLists_fst_length, convertedLists_snd_length]
  · intro h1 h2 h3
    simp [cell7E, h1, h2, h3, except_bindOk, except_bindErr,
          convertedLists_fst_length, convertedLists_snd_length]
  · intro h1 h2 h3 h4
    simp [cell7E, h1, h2, h3, h4, except_bindOk, except_bindErr,
          convertedLists_fst_length, convertedLists_snd_length,
          qubit_reduction_parity]
  · intro h1 h2 h3 h4 h5
    simp [cell7E, h1, h2, h3, h4, h5, except_bindOk, except_bindErr,
          convertedLists_fst_length, convertedLists_snd_length,
          qubit_reduction_parity]
  · intro h1 h2 h3 h4 h5 h6
    simp [cell7E, h1, h2, h3, h4, h5, h6, except_bindOk, except_bindErr,
          except_mapErr, convertedLists_fst_length, convertedLists_snd_length,
          qubit_reduction_parity]

/-- C6 witness: a concrete library whose driver call fails makes the whole
notebook fail with exactly that error. -/
theorem C6_error_propagation_witness :
    runNotebookE failLibE = Except.error "boom" :=
  (C6_error_propagation failLibE "boom" mol0 c7_0 ret0 () () ((), 0) () ()).1 rfl

/-- C7: the notebook's library calls happen in one fixed sequential order —
driver run, fermionic-operator construction, freezing, elimination, mapping,
two-qubit reduction, chop, exact eigensolver run, VQE run — for every number
of orbitals read from the molecule. -/
theorem C7_fixed_order (n : Nat) :
    notebookEvents n
      = [CallEvent.driverRun, CallEvent.ferOpConstruct, CallEvent.freezing,
         CallEvent.elimination, CallEvent.mapping, CallEvent.twoQubitReduction,
         CallEvent.chop, CallEvent.exactRun, CallEvent.vqeRun] := by
  simp [notebookEvents, cell7Events, qubit_reduction, map_type,
        convertedLists_fst_length, convertedLists_snd_length]

/-- C8: the notebook's own computation is deterministic in the molecule
attributes: two molecules agreeing on `num_orbitals`, `num_alpha`, `num_beta`,
the integral tables and the nuclear repulsion energy yield the same
`freeze_list`, `remove_list`, `num_particles`, `num_spin_orbitals`,
`qubit_reduction` and `energy_shift` under the same library. -/
theorem C8_determinism {FOp QOp H1T H2T : Type}
    (lib : Lib FOp QOp H1T H2T) (m1 m2 : Molecule H1T H2T)
    (ho : m1.num_orbitals = m2.num_orbitals)
    (ha : m1.num_alpha = m2.num_alpha)
    (hb : m1.num_beta = m2.num_beta)
    (h1 : m1.one_body_integrals = m2.one_body_integrals)
    (h2 : m1.two_body_integrals = m2.two_body_integrals)
    (hn : m1.nuclear_repulsion_energy = m2.nuclear_repulsion_energy) :
    (cell7 map_type lib m1).freeze_list = (cell7 map_type lib m2).freeze_list
    ∧ (cell7 map_type lib m1).remove_list = (cell7 map_type lib m2).remove_list
    ∧ (cell7 map_type lib m1).num_particles = (cell7 map_type lib m2).num_particles
    ∧ (cell7 map_type lib m1).num_spin_orbitals = (cell7 map_type lib m2).num_spin_orbitals
    ∧ (cell7 map_type lib m1).qubit_reduction = (cell7 map_type lib m2).qubit_reduction
    ∧ (cell7 map_type lib m1).energy_shift = (cell7 map_type lib m2).energy_shift := by
  obtain ⟨o1, t1, nre1, hfe1, a1, b1, n1⟩ := m1
  obtain ⟨o2, t2, nre2, hfe2, a2, b2, n2⟩ := m2
  have ho' : n1 = n2 := ho
  have ha' : a1 = a2 := ha
  have hb' : b1 = b2 := hb
  have h1' : o1 = o2 := h1
  have h2' : t1 = t2 := h2
  subst ho' ha' hb' h1' h2'
  exact ⟨rfl, rfl, rfl, rfl, rfl, rfl⟩

/-- C8 witness: two concrete molecules differing only in `hf_energy` give the
same six notebook-computed values. -/
theorem C8_determinism_witness :
    (cell7 map_type unitLib mol0).freeze_list = (cell7 map_type unitLib mol1).freeze_list
    ∧ (cell7 map_type unitLib mol0).remove_list = (cell7 map_type unitLib mol1).remove_list
    ∧ (cell7 map_type unitLib mol0).num_particles = (cell7 map_type unitLib mol1).num_particles
    ∧ (cell7 map_type unitLib mol0).num_spin_orbitals
        = (cell7 map_type unitLib mol1).num_spin_orbitals
    ∧ (cell7 map_type unitLib mol0).qubit_reduction = (cell7 map_type unitLib mol1).qubit_reduction
    ∧ (cell7 map_type unitLib mol0).energy_shift = (cell7 map_type unitLib mol1).energy_shift :=
  C8_determinism unitLib mol0 mol1 rfl rfl rfl rfl rfl rfl

/-- C9: both reported total ground-state energies apply the identical affine
correction to their computed eigenvalue: the exact-eigensolver total is
`ret['eigvals'][0].real + energy_shift + nuclear_repulsion_energy` and the VQE
total is `results['eigvals'][0] + energy_shift + nuclear_repulsion_energy`,
with the same `energy_shift` (from cell 7) and the same
`nuclear_repulsion_energy` (from the molecule) in both. -/
theorem C9_same_affine_correction {FOp QOp H1T H2T : Type}
    (lib : Lib FOp QOp H1T H2T) (m : Molecule H1T H2T) :
    exact_total lib m
      = correction (cell7 map_type lib m).energy_shift m.nuclear_repulsion_energy
          (exact_computed lib m)
    ∧ vqe_total lib m
      = correction (cell7 map_type lib m).energy_shift m.nuclear_repulsion_energy
          (vqe_computed lib m) :=
  ⟨rfl, rfl⟩

/-- C10: the two-qubit reduction is applied exactly when the mapping type is
`'parity'`: `qubit_reduction` is true iff `map_type == 'parity'`, the operator
after the conditional expression is the reduced operator exactly when
`qubit_reduction` holds, and for every other mapping type the operator
returned by `ferOp.mapping` is passed through unchanged. -/
theorem C10_parity_reduction {FOp QOp H1T H2T : Type}
    (lib : Lib FOp QOp H1T H2T) (m : Molecule H1T H2T) (mt : String) :
    ((cell7 mt lib m).qubit_reduction = true ↔ mt = "parity")
    ∧ (cell7 mt lib m).qubitOp_afterReduction
        = (if (cell7 mt lib m).qubit_reduction then
             lib.two_qubit_reduced_operator (cell7 mt lib m).qubitOp_mapped
               (cell7 mt lib m).num_particles
           else (cell7 mt lib m).qubitOp_mapped)
    ∧ (¬ mt = "parity" →
        (cell7 mt lib m).qubitOp_afterReduction = (cell7 mt lib m).qubitOp_mapped) := by
  refine ⟨?_, ?_, ?_⟩
  · by_cases hm : mt = "parity" <;> simp [cell7, qubit_reduction, hm]
  · by_cases hm : mt = "parity" <;>
      simp [cell7, qubit_reduction, qubitOp_afterReduction, qubitOp_mapped, hm]
  · intro hm
    simp [cell7, qubit_reduction, qubitOp_afterReduction, hm]

/-- C10 witness: with a non-parity mapping type the operator passes through
the reduction step unchanged. -/
theorem C10_parity_reduction_witness :
    (cell7 "jordan_wigner" unitLib mol0).qubitOp_afterReduction
      = (cell7 "jordan_wigner" unitLib mol0).qubitOp_mapped :=
  (C10_parity_reduction unitLib mol0 "jordan_wigner").2.2 (by decide)
